import Mathlib

/-!
Verification of the pattern-layout engine of `locher.py` (a DIN 24041 hole
pattern generator).  The layout algorithm `draw_pattern`, the hole-type
dispatch table, and the `abort` exit behaviour are embedded shallowly; the
numeric computations of the source (Python floats) are modelled over an
ordered field with a floor function, instantiated at `ℚ` for concrete
evaluation and at `ℝ` for the dispatch table (which uses square roots).
-/

namespace Locher

/-- Python `range(a, b)`: the integers `a, a+1, ..., b-1` (empty when `b ≤ a`). -/
def intRange (a b : ℤ) : List ℤ :=
  (List.range (b - a).toNat).map (fun (i : ℕ) => a + (i : ℤ))

/-- Python `str.lower()`, modelled as character-wise lowering. -/
def lowerString (s : String) : String :=
  String.mk (s.data.map Char.toLower)

/-- The arguments of `draw_pattern(svg, sw, sh, wx, wy, px, py, f, e, ...)`:
plate (drawing box) size `sw × sh`, hole length `wx` and width `wy`,
partitions `px`, `py`, borders `f` (x) and `e` (y), and the layout options
dictionary (`uniform`, `staggered`, `corners`, `skip`). -/
structure LayoutRequest (α : Type) where
  sw : α
  sh : α
  wx : α
  wy : α
  px : α
  py : α
  f : α
  e : α
  uniform : Bool
  staggered : Bool
  corners : Bool
  skip : ℤ

variable {α : Type} [LinearOrderedField α] [FloorRing α]

namespace LayoutRequest

/-- `shifted = (uniform and staggered)` (line 114). -/
def shifted (r : LayoutRequest α) : Bool := r.uniform && r.staggered

/-- Hole clearance x: `cx = px - wx` (line 116). -/
def cx (r : LayoutRequest α) : α := r.px - r.wx

/-- Hole clearance y: `cy = py - wy` (line 117). -/
def cy (r : LayoutRequest α) : α := r.py - r.wy

/-- Plate edge term x: `ex = -(2 * wx) if f <= 0 else (2 * f)` (line 119). -/
def ex (r : LayoutRequest α) : α := if r.f ≤ 0 then -(2 * r.wx) else 2 * r.f

/-- Plate edge term y: `ey = -(2 * wy) if e <= 0 else (2 * e)` (line 120). -/
def ey (r : LayoutRequest α) : α := if r.e ≤ 0 then -(2 * r.wy) else 2 * r.e

/-- Number of holes per row: `hx = math.floor((sw - ex + cx) / px)` (line 122). -/
def hx (r : LayoutRequest α) : ℤ := ⌊(r.sw - r.ex + r.cx) / r.px⌋

/-- Number of rows: `hy = math.floor((sh - ey + cy) / py)` (line 123). -/
def hy (r : LayoutRequest α) : ℤ := ⌊(r.sh - r.ey + r.cy) / r.py⌋

/-- Field width: `fw = px * (hx - 0.5 * shifted)` (line 125). -/
def fw (r : LayoutRequest α) : α :=
  r.px * ((r.hx : α) - (if r.shifted then (1 : α) / 2 else 0))

/-- Field height: `fh = py * hy` (line 126). -/
def fh (r : LayoutRequest α) : α := r.py * (r.hy : α)

/-- Drawing start x: `sx = 0.5 * (sw - fw) + 0.5 * px` (line 128). -/
def sx (r : LayoutRequest α) : α := (r.sw - r.fw) / 2 + r.px / 2

/-- Drawing start y: `sy = 0.5 * (sh - fh) + 0.5 * py` (line 129). -/
def sy (r : LayoutRequest α) : α := (r.sh - r.fh) / 2 + r.py / 2

/-- Row offset flag: `mod = staggered * ((row % 2) ^ (not corners))` (line 144);
the Python expression is `0/1`-valued, modelled as a boolean. -/
def rowMod (r : LayoutRequest α) (row : ℕ) : Bool :=
  r.staggered && (decide (row % 2 = 1) ^^ !r.corners)

/-- Effective skip: `skip = shifted * skip` (line 145). -/
def rowSkip (r : LayoutRequest α) : ℤ := if r.shifted then r.skip else 0

/-- Trailing trim: `less = (shifted or mod) + ((not mod) * skip)` (line 146),
with `skip` already replaced by `shifted * skip`. -/
def rowLess (r : LayoutRequest α) (row : ℕ) : ℤ :=
  (if r.shifted || r.rowMod row then 1 else 0) +
    (if r.rowMod row then 0 else r.rowSkip)

/-- First column index: `mod * skip` in `range((mod * skip), (hx - less))` (line 148). -/
def colStart (r : LayoutRequest α) (row : ℕ) : ℤ :=
  if r.rowMod row then r.rowSkip else 0

/-- Column indices of a row: `range((mod * skip), (hx - less))` (line 148). -/
def rowCols (r : LayoutRequest α) (row : ℕ) : List ℤ :=
  intRange (r.colStart row) (r.hx - r.rowLess row)

/-- Hole center x: `x = sx + (col * px) + (mod * px * 0.5)` (line 149). -/
def holeX (r : LayoutRequest α) (row : ℕ) (col : ℤ) : α :=
  r.sx + (col : α) * r.px + (if r.rowMod row then r.px / 2 else 0)

/-- Hole center y: `y = sy + (row * py)` (line 147). -/
def holeY (r : LayoutRequest α) (row : ℕ) : α := r.sy + (row : α) * r.py

/-- The hole centers of one row, in column order. -/
def rowHoles (r : LayoutRequest α) (row : ℕ) : List (α × α) :=
  (r.rowCols row).map (fun c => (r.holeX row c, r.holeY row))

/-- The full ordered HoleSet produced by `draw_pattern` (lines 143-150):
row-major, `for row in range(0, hy)`. -/
def computePattern (r : LayoutRequest α) : List (α × α) :=
  (List.range r.hy.toNat).flatMap r.rowHoles

end LayoutRequest

/-- The edge term as the specification document words it: `2*border` when the
border is positive, `-2*hole_dimension` when the border is `≤ 0`.
Stated from the spec for comparison with the source-derived `ex`/`ey`. -/
def spec_edgeTerm (border holeDim : α) : α :=
  if border > 0 then 2 * border else -(2 * holeDim)

/-- `count_x` as the specification words it:
`floor((plate_width - edge_term_x + clearance_x) / partition_x)` with
`clearance_x = partition_x - hole_length`. -/
def spec_countX (plateW holeLen partX borderX : α) : ℤ :=
  ⌊(plateW - spec_edgeTerm borderX holeLen + (partX - holeLen)) / partX⌋

/-- `count_y` as the specification words it:
`floor((plate_height - edge_term_y + clearance_y) / partition_y)` with
`clearance_y = partition_y - hole_width`. -/
def spec_countY (plateH holeW partY borderY : α) : ℤ :=
  ⌊(plateH - spec_edgeTerm borderY holeW + (partY - holeW)) / partY⌋

/-- A call to `abort(message, code=0, ...)` (lines 80-84): prints `message`
and terminates the process via `sys.exit(code)`; the exit status defaults
to `0`. -/
structure AbortCall where
  message : String
  exitCode : ℤ
deriving DecidableEq

/-- The hole shapes selected by the dispatch: `draw_hole_r`, `draw_hole_q`,
`draw_hole_l`, `draw_hole_le`. -/
inductive HoleShape
  | round
  | square
  | slot
  | slotSquare
deriving DecidableEq

/-- Result of the hole-type dispatch: the drawing function, the staggered
flag, and the derived partitions `q` (x) and `p` (y). -/
structure Resolved where
  shape : HoleShape
  staggered : Bool
  q : ℝ
  p : ℝ

/-- The hole-type dispatch (lines 260-301).  `hole_type = args.hole_type.lower()`
is compared against the DIN codes; the branches update `pattern["q"]`,
`pattern["p"]` and `options["staggered"]` exactly as the source does, and the
final `else` calls `abort("Hole type " + args.hole_type + " not implemented")`
with the default exit code `0`. -/
noncomputable def resolveHoleType (holeTypeArg : String) (p q : ℝ) :
    Except AbortCall Resolved :=
  let t := lowerString holeTypeArg
  if t = "rg" then .ok ⟨.round, false, p, p⟩
  else if t = "rd" then .ok ⟨.round, true, Real.sqrt 2 * q, Real.sqrt 2 * q * 0.5⟩
  else if t = "rv" then .ok ⟨.round, true, q, Real.sqrt 3 * 0.5 * q⟩
  else if t = "qg" then .ok ⟨.square, false, p, p⟩
  else if t = "qd" then .ok ⟨.square, true, Real.sqrt 2 * p, Real.sqrt 2 * p * 0.5⟩
  else if t = "qv" then .ok ⟨.square, true, p, p⟩
  else if t = "lg" then .ok ⟨.slot, false, q, p⟩
  else if t = "lge" then .ok ⟨.slotSquare, false, q, p⟩
  else if t = "lv" then .ok ⟨.slot, true, q, p⟩
  else if t = "lve" then .ok ⟨.slotSquare, true, q, p⟩
  else .error ⟨"Hole type " ++ holeTypeArg ++ " not implemented", 0⟩

/-- The main flow around the engine (lines 252-322): the dispatch runs first;
on an unknown code the program aborts before `draw_pattern` is reached,
otherwise `draw_pattern` is called with `wx := pattern["l"]`,
`wy := pattern["w"]`, `px := pattern["q"]`, `py := pattern["p"]` and the
options dictionary, whose `skip` entry is the literal `0` (line 256). -/
noncomputable def runProgram (holeType : String) (imgW imgH w l p q fx fy : ℝ)
    (uniform corners : Bool) : Except AbortCall (List (ℝ × ℝ)) :=
  match resolveHoleType holeType p q with
  | .error a => .error a
  | .ok res =>
      .ok (LayoutRequest.computePattern
        ⟨imgW, imgH, l, w, res.q, res.p, fx, fy, uniform, res.staggered, corners, 0⟩)

/-- The concrete scenario of the spec: 100×100 plate, hole size 5,
partitions 10, borders 0, straight rows. -/
def req2 : LayoutRequest ℚ :=
  ⟨100, 100, 5, 5, 10, 10, 0, 0, false, false, false, 0⟩

/-- The same scenario with `staggered = true` (and `uniform = false`,
`corners = false`, `skip = 0`). -/
def req3 : LayoutRequest ℚ :=
  ⟨100, 100, 5, 5, 10, 10, 0, 0, false, true, false, 0⟩

/-- A staggered, non-uniform request whose horizontal count is 0 while two
rows fit: plate 5×10, hole size 5, partitions 10, border x 4, border y 0. -/
def req4 : LayoutRequest ℚ :=
  ⟨5, 10, 5, 5, 10, 10, 4, 0, false, true, false, 0⟩

/-- A request with positive `hx` but negative `hy`: plate 100×10, hole size 5,
partitions 10, border x 0, border y 20. -/
def req8 : LayoutRequest ℚ :=
  ⟨100, 10, 5, 5, 10, 10, 0, 20, false, false, false, 0⟩

/-- The 100×100 scenario with `staggered = true` and `uniform = true`. -/
def req5 : LayoutRequest ℚ :=
  ⟨100, 100, 5, 5, 10, 10, 0, 0, true, true, false, 0⟩

namespace LayoutRequest

lemma length_intRange (a b : ℤ) : (intRange a b).length = (b - a).toNat := by
  simp [intRange]

lemma length_rowHoles (r : LayoutRequest α) (row : ℕ) :
    (r.rowHoles row).length = (r.hx - r.rowLess row - r.colStart row).toNat := by
  simp [rowHoles, rowCols, length_intRange, sub_sub]

omit [LinearOrderedField α] [FloorRing α] in
lemma rowMod_of_not_staggered (r : LayoutRequest α) (h : r.staggered = false)
    (row : ℕ) : r.rowMod row = false := by
  simp [rowMod, h]

omit [LinearOrderedField α] [FloorRing α] in
lemma shifted_of_not_staggered (r : LayoutRequest α) (h : r.staggered = false) :
    r.shifted = false := by
  simp [shifted, h]

lemma rowCols_of_not_staggered (r : LayoutRequest α) (h : r.staggered = false)
    (row : ℕ) : r.rowCols row = intRange 0 r.hx := by
  simp [rowCols, colStart, rowLess, rowSkip, rowMod_of_not_staggered r h,
    shifted_of_not_staggered r h]

lemma computePattern_of_not_staggered (r : LayoutRequest α)
    (h : r.staggered = false) :
    r.computePattern =
      (List.range r.hy.toNat).flatMap (fun row =>
        (List.range r.hx.toNat).map
          (fun (col : ℕ) => (r.sx + (col : α) * r.px, r.sy + (row : α) * r.py))) := by
  unfold computePattern
  congr 1
  funext row
  rw [rowHoles, rowCols_of_not_staggered r h]
  simp [intRange, List.map_map, Function.comp, holeX, holeY,
    rowMod_of_not_staggered r h]

lemma length_computePattern_of_not_staggered (r : LayoutRequest α)
    (h : r.staggered = false) :
    r.computePattern.length = r.hy.toNat * r.hx.toNat := by
  rw [computePattern_of_not_staggered r h]
  simp [List.length_flatMap, Function.comp_def, List.map_const',
    List.sum_replicate, smul_eq_mul]

lemma req2_ex : req2.ex = -10 := by
  rw [ex, if_pos] <;> norm_num [req2]

lemma req2_hx : req2.hx = 11 := by
  rw [hx, req2_ex]
  norm_num [req2, cx, Int.floor_eq_iff]

lemma req2_ey : req2.ey = -10 := by
  rw [ey, if_pos] <;> norm_num [req2]

lemma req2_hy : req2.hy = 11 := by
  rw [hy, req2_ey]
  norm_num [req2, cy, Int.floor_eq_iff]

lemma req2_sx : req2.sx = 0 := by
  rw [sx, fw, req2_hx, shifted]
  norm_num [req2]

lemma req2_sy : req2.sy = 0 := by
  rw [sy, fh, req2_hy]
  norm_num [req2]

lemma req3_ex : req3.ex = -10 := by
  rw [ex, if_pos] <;> norm_num [req3]

lemma req3_hx : req3.hx = 11 := by
  rw [hx, req3_ex]
  norm_num [req3, cx, Int.floor_eq_iff]

lemma req3_ey : req3.ey = -10 := by
  rw [ey, if_pos] <;> norm_num [req3]

lemma req3_hy : req3.hy = 11 := by
  rw [hy, req3_ey]
  norm_num [req3, cy, Int.floor_eq_iff]

lemma req3_sx : req3.sx = 0 := by
  rw [sx, fw, req3_hx, shifted]
  norm_num [req3]

lemma req4_ex : req4.ex = 8 := by
  rw [ex, if_neg] <;> norm_num [req4]

lemma req4_hx : req4.hx = 0 := by
  rw [hx, req4_ex]
  norm_num [req4, cx, Int.floor_eq_iff]

lemma req4_ey : req4.ey = -10 := by
  rw [ey, if_pos] <;> norm_num [req4]

lemma req4_hy : req4.hy = 2 := by
  rw [hy, req4_ey]
  norm_num [req4, cy, Int.floor_eq_iff]

lemma req8_ex : req8.ex = -10 := by
  rw [ex, if_pos] <;> norm_num [req8]

lemma req8_hx : req8.hx = 11 := by
  rw [hx, req8_ex]
  norm_num [req8, cx, Int.floor_eq_iff]

lemma req8_ey : req8.ey = 40 := by
  rw [ey, if_neg] <;> norm_num [req8]

lemma req8_hy : req8.hy = -3 := by
  rw [hy, req8_ey]
  norm_num [req8, cy, Int.floor_eq_iff]

omit [LinearOrderedField α] [FloorRing α] in
lemma rowSkip_nonneg (r : LayoutRequest α) (hk : 0 ≤ r.skip) : 0 ≤ r.rowSkip := by
  unfold rowSkip
  split
  · exact hk
  · exact le_refl 0

omit [LinearOrderedField α] [FloorRing α] in
lemma rowLess_nonneg (r : LayoutRequest α) (hk : 0 ≤ r.skip) (row : ℕ) :
    0 ≤ r.rowLess row := by
  have hs := r.rowSkip_nonneg hk
  unfold rowLess
  split <;> split <;> omega

omit [LinearOrderedField α] [FloorRing α] in
lemma colStart_nonneg (r : LayoutRequest α) (hk : 0 ≤ r.skip) (row : ℕ) :
    0 ≤ r.colStart row := by
  have hs := r.rowSkip_nonneg hk
  unfold colStart
  split <;> omega

lemma head?_intRange (a b : ℤ) (h : a < b) : (intRange a b).head? = some a := by
  have hne : (b - a).toNat ≠ 0 := by omega
  obtain ⟨m, hm⟩ := Nat.exists_eq_succ_of_ne_zero hne
  rw [intRange, hm, List.range_succ_eq_map]
  simp

lemma getLast?_intRange (a b : ℤ) (h : a < b) :
    (intRange a b).getLast? = some (b - 1) := by
  have hne : (b - a).toNat ≠ 0 := by omega
  obtain ⟨m, hm⟩ := Nat.exists_eq_succ_of_ne_zero hne
  rw [intRange, hm, List.range_succ, List.map_append]
  rw [List.map_singleton, List.getLast?_concat]
  have : a + (m : ℤ) = b - 1 := by omega
  rw [this]

end LayoutRequest

open LayoutRequest

/-- Claim C1: for every layout request, the per-axis hole counts of
`draw_pattern` are `count_x = floor((plate_width - edge_term_x + clearance_x) / partition_x)`
and `count_y = floor((plate_height - edge_term_y + clearance_y) / partition_y)`,
with `clearance_x = partition_x - hole_length`, `clearance_y = partition_y - hole_width`,
and `edge_term = 2*border` when the border is positive, `-2*hole_dimension`
when the border is `≤ 0` — the source computation refines the spec formulas. -/
theorem c1_hole_counts_match_spec (r : LayoutRequest ℚ) :
    r.hx = spec_countX r.sw r.wx r.px r.f ∧
      r.hy = spec_countY r.sh r.wy r.py r.e := by
  constructor
  · unfold LayoutRequest.hx spec_countX LayoutRequest.cx LayoutRequest.ex spec_edgeTerm
    rcases le_or_lt r.f 0 with hf | hf
    · rw [if_pos hf, if_neg (not_lt.mpr hf)]
    · rw [if_neg (not_le.mpr hf), if_pos hf]
  · unfold LayoutRequest.hy spec_countY LayoutRequest.cy LayoutRequest.ey spec_edgeTerm
    rcases le_or_lt r.e 0 with he | he
    · rw [if_pos he, if_neg (not_lt.mpr he)]
    · rw [if_neg (not_le.mpr he), if_pos he]

/-- Claim C2 counterexample: in the 100×100 scenario with border 0 the code's
edge term is `-10` (not `10`), the per-axis count is `11` (not `9`), and the
HoleSet has 121 holes (not 81). -/
theorem c2_counterexample :
    req2.ex = -10 ∧ req2.hx = 11 ∧ req2.hy = 11 ∧
      req2.computePattern.length = 121 ∧ req2.computePattern.length ≠ 81 := by
  have hlen : req2.computePattern.length = 121 := by
    rw [length_computePattern_of_not_staggered req2 rfl, req2_hx, req2_hy]
    decide
  exact ⟨req2_ex, req2_hx, req2_hy, hlen, by rw [hlen]; decide⟩

/-- Claim C2 (amended): for `plate = 100×100`, `hole = 5`, `partition = 10`,
`border = 0`, `staggered = false`, the engine computes `clearance = 5`,
`edge_term = -10` (border `≤ 0` substitutes `-2*hole_dim`), and
`count_x = count_y = floor((100+10+5)/10) = 11`, producing exactly 11×11 = 121
hole centers at `x, y ∈ {0, 10, ..., 100}` — evenly spaced with pitch 10 and
centered on the plate (first plus last coordinate is 0 + 100 = plate size). -/
theorem c2_amended :
    req2.cx = 5 ∧ req2.cy = 5 ∧ req2.ex = -10 ∧ req2.ey = -10 ∧
      req2.hx = 11 ∧ req2.hy = 11 ∧
      req2.computePattern =
        (List.range 11).flatMap (fun row =>
          (List.range 11).map
            (fun (col : ℕ) => ((col : ℚ) * 10, (row : ℚ) * 10))) := by
  refine ⟨by norm_num [LayoutRequest.cx, req2], by norm_num [LayoutRequest.cy, req2],
    req2_ex, req2_ey, req2_hx, req2_hy, ?_⟩
  rw [computePattern_of_not_staggered req2 rfl, req2_hx, req2_hy, req2_sx, req2_sy,
    show (11 : ℤ).toNat = 11 from by decide]
  norm_num [req2, mul_comm]

/-- Claim C3 counterexample: with `staggered = true` and `corners = false`
(the 100×100 scenario), row 0 is the shifted row (`mod = 1`) and row 1 is
unshifted: the first hole of row 0 sits at `x = 5` while the first hole of
row 1 sits at `x = 0`, contradicting the claim that row 0 is unshifted and
row 1 is shifted. -/
theorem c3_counterexample :
    req3.staggered = true ∧ req3.corners = false ∧
      req3.rowMod 0 = true ∧ req3.rowMod 1 = false ∧
      req3.holeX 0 0 = 5 ∧ req3.holeX 1 0 = 0 := by
  have hm0 : req3.rowMod 0 = true := by decide
  have hm1 : req3.rowMod 1 = false := by decide
  refine ⟨rfl, rfl, hm0, hm1, ?_, ?_⟩
  · rw [LayoutRequest.holeX, req3_sx, hm0]
    norm_num [req3]
  · rw [LayoutRequest.holeX, req3_sx, hm1]
    norm_num [req3]

/-- Claim C3 (amended): with `staggered = true` and `corners = false`, row 0 is
the shifted row (offset by exactly `0.5 * partition_x` relative to an unshifted
row) and row 1 is unshifted; with `corners = true` the parity is inverted
(row 0 unshifted, row 1 shifted). -/
theorem c3_amended (r : LayoutRequest ℚ) (hst : r.staggered = true) :
    (r.corners = false →
       r.rowMod 0 = true ∧ r.rowMod 1 = false ∧
       ∀ col : ℤ, r.holeX 0 col = r.holeX 1 col + r.px / 2) ∧
    (r.corners = true →
       r.rowMod 0 = false ∧ r.rowMod 1 = true ∧
       ∀ col : ℤ, r.holeX 1 col = r.holeX 0 col + r.px / 2) := by
  constructor
  · intro hc
    have h0 : r.rowMod 0 = true := by simp [LayoutRequest.rowMod, hst, hc]
    have h1 : r.rowMod 1 = false := by simp [LayoutRequest.rowMod, hst, hc]
    refine ⟨h0, h1, fun col => ?_⟩
    rw [LayoutRequest.holeX, LayoutRequest.holeX, h0, h1]
    simp
  · intro hc
    have h0 : r.rowMod 0 = false := by simp [LayoutRequest.rowMod, hst, hc]
    have h1 : r.rowMod 1 = true := by simp [LayoutRequest.rowMod, hst, hc]
    refine ⟨h0, h1, fun col => ?_⟩
    rw [LayoutRequest.holeX, LayoutRequest.holeX, h0, h1]
    simp

/-- Witness for the amended claim C3, at the concrete staggered 100×100
request and column 7. -/
theorem c3_witness :
    req3.staggered = true ∧
      (req3.rowMod 0 = true ∧ req3.rowMod 1 = false ∧
        req3.holeX 0 7 = req3.holeX 1 7 + req3.px / 2) := by
  have h := (c3_amended req3 rfl).1 rfl
  exact ⟨rfl, h.1, h.2.1, h.2.2 7⟩

/-- Claim C4 (amended): with `uniform = true` and `staggered = true`, every row
has the same number of holes as every other row, for any `skip`; with
`staggered = true`, `uniform = false`, `skip = 0`, and at least one hole per
unshifted row (`1 ≤ count_x`), each unshifted row has exactly one hole more
than each shifted row. -/
theorem c4_amended :
    (∀ r : LayoutRequest ℚ, r.uniform = true → r.staggered = true →
       ∀ i j : ℕ, (r.rowHoles i).length = (r.rowHoles j).length) ∧
    (∀ r : LayoutRequest ℚ, r.uniform = false → r.staggered = true →
       r.skip = 0 → 1 ≤ r.hx → ∀ i j : ℕ,
       r.rowMod i = true → r.rowMod j = false →
       (r.rowHoles j).length = (r.rowHoles i).length + 1) := by
  constructor
  · intro r hu hst i j
    have hsh : r.shifted = true := by simp [LayoutRequest.shifted, hu, hst]
    rw [length_rowHoles, length_rowHoles]
    cases hmi : r.rowMod i <;> cases hmj : r.rowMod j <;>
      simp [LayoutRequest.rowLess, LayoutRequest.colStart, LayoutRequest.rowSkip,
        hsh, hmi, hmj] <;> omega
  · intro r hu hst hk hx1 i j hmi hmj
    have hsh : r.shifted = false := by simp [LayoutRequest.shifted, hu]
    rw [length_rowHoles, length_rowHoles]
    simp [LayoutRequest.rowLess, LayoutRequest.colStart, LayoutRequest.rowSkip,
      hsh, hmi, hmj]
    omega

/-- Claim C4 counterexample: for the staggered, non-uniform request `req4`
(`skip = 0`) the horizontal count is 0, so the shifted row 0 and the unshifted
row 1 both contain 0 holes — the unshifted row does not have one hole more. -/
theorem c4_counterexample :
    req4.staggered = true ∧ req4.uniform = false ∧ req4.skip = 0 ∧
      req4.rowMod 0 = true ∧ req4.rowMod 1 = false ∧ req4.hy = 2 ∧
      ¬ ((req4.rowHoles 1).length = (req4.rowHoles 0).length + 1) := by
  have h0 : (req4.rowHoles 0).length = 0 := by
    rw [length_rowHoles, req4_hx]
    decide
  have h1 : (req4.rowHoles 1).length = 0 := by
    rw [length_rowHoles, req4_hx]
    decide
  refine ⟨rfl, rfl, rfl, by decide, by decide, req4_hy, ?_⟩
  rw [h0, h1]
  decide

/-- Witness for the amended claim C4: at `req5` (uniform, staggered) rows 0 and
1 have equal hole counts; at `req3` (staggered, non-uniform, `skip = 0`,
`count_x = 11 ≥ 1`) the unshifted row 1 has one hole more than the shifted
row 0. -/
theorem c4_witness :
    req5.uniform = true ∧ req5.staggered = true ∧
      (req5.rowHoles 0).length = (req5.rowHoles 1).length ∧
      req3.uniform = false ∧ req3.staggered = true ∧ req3.skip = 0 ∧
      1 ≤ req3.hx ∧ req3.rowMod 0 = true ∧ req3.rowMod 1 = false ∧
      (req3.rowHoles 1).length = (req3.rowHoles 0).length + 1 := by
  have hx3 : (1 : ℤ) ≤ req3.hx := by rw [req3_hx]; decide
  exact ⟨rfl, rfl, c4_amended.1 req5 rfl rfl 0 1, rfl, rfl, rfl, hx3,
    by decide, by decide,
    c4_amended.2 req3 rfl rfl rfl hx3 0 1 (by decide) (by decide)⟩

/-- Claim C6: when `count_x` or `count_y` computes to zero or negative, the
engine produces an empty HoleSet; the computation is a total function (no
error is raised). -/
theorem c6_empty_when_count_nonpositive (r : LayoutRequest ℚ) (hk : 0 ≤ r.skip)
    (h : r.hx ≤ 0 ∨ r.hy ≤ 0) : r.computePattern = [] := by
  rcases h with h | h
  · have hrows : ∀ row, r.rowHoles row = [] := by
      intro row
      have hless := r.rowLess_nonneg hk row
      have hstart := r.colStart_nonneg hk row
      have hlen : (r.rowHoles row).length = 0 := by
        rw [length_rowHoles]
        omega
      exact List.length_eq_zero.mp hlen
    unfold LayoutRequest.computePattern
    have hfun : r.rowHoles = fun _ => [] := funext hrows
    rw [hfun]
    simp
  · unfold LayoutRequest.computePattern
    rw [Int.toNat_of_nonpos h]
    rfl

/-- Witness for claim C6: the request `req4` has `count_x = 0` and yields the
empty HoleSet. -/
theorem c6_witness :
    0 ≤ req4.skip ∧ (req4.hx ≤ 0 ∨ req4.hy ≤ 0) ∧ req4.computePattern = [] := by
  have hx4 : req4.hx ≤ 0 := by rw [req4_hx]
  exact ⟨by decide, Or.inl hx4,
    c6_empty_when_count_nonpositive req4 (by decide) (Or.inl hx4)⟩

/-- Claim C8 counterexample: for `req8` the counts are `count_x = 11`,
`count_y = -3`; the engine places 0 holes, but `0 ≤ count_x * count_y = -33`
is false, so the hole total does exceed `count_x * count_y`. -/
theorem c8_counterexample :
    req8.hx = 11 ∧ req8.hy = -3 ∧ req8.computePattern = [] ∧
      ¬ ((req8.computePattern.length : ℤ) ≤ req8.hx * req8.hy) := by
  have hempty : req8.computePattern = [] := by
    unfold LayoutRequest.computePattern
    rw [show req8.hy.toNat = 0 from by rw [req8_hy]; decide]
    rfl
  refine ⟨req8_hx, req8_hy, hempty, ?_⟩
  rw [hempty, req8_hx, req8_hy]
  decide

/-- Claim C8 (amended): for every layout request with non-negative `skip`, the
number of holes placed is non-negative and never exceeds
`max(count_x, 0) * max(count_y, 0)` (the integer product `count_x * count_y`
is negative — hence below the hole total — when exactly one count is
negative). -/
theorem c8_amended (r : LayoutRequest ℚ) (hk : 0 ≤ r.skip) :
    r.computePattern.length ≤ r.hx.toNat * r.hy.toNat := by
  unfold LayoutRequest.computePattern
  rw [List.length_flatMap]
  have hbound : ∀ x ∈ (List.range r.hy.toNat).map (List.length ∘ r.rowHoles),
      x ≤ r.hx.toNat := by
    intro x hmem
    simp only [List.mem_map, Function.comp] at hmem
    obtain ⟨row, _, rfl⟩ := hmem
    rw [length_rowHoles]
    have hless := r.rowLess_nonneg hk row
    have hstart := r.colStart_nonneg hk row
    omega
  calc ((List.range r.hy.toNat).map (List.length ∘ r.rowHoles)).sum
      ≤ ((List.range r.hy.toNat).map (List.length ∘ r.rowHoles)).length • r.hx.toNat :=
        List.sum_le_card_nsmul _ _ hbound
    _ = r.hx.toNat * r.hy.toNat := by
        simp [Nat.mul_comm]

/-- Witness for the amended claim C8: the 100×100 scenario places
121 ≤ 11 * 11 holes. -/
theorem c8_witness :
    0 ≤ req2.skip ∧ req2.computePattern.length ≤ req2.hx.toNat * req2.hy.toNat :=
  ⟨by decide, c8_amended req2 (by decide)⟩

/-- Claim C9: with `staggered = false` the computed coordinate sequence is
completely independent of `uniform`, `corners`, and `skip`: two requests
identical except in those three fields yield identical ordered HoleSets. -/
theorem c9_flags_irrelevant_when_not_staggered
    (sw sh wx wy px py f e : ℚ) (u1 c1 : Bool) (k1 : ℤ)
    (u2 c2 : Bool) (k2 : ℤ) :
    LayoutRequest.computePattern ⟨sw, sh, wx, wy, px, py, f, e, u1, false, c1, k1⟩ =
      LayoutRequest.computePattern ⟨sw, sh, wx, wy, px, py, f, e, u2, false, c2, k2⟩ := by
  rw [computePattern_of_not_staggered _ rfl, computePattern_of_not_staggered _ rfl]
  simp [LayoutRequest.hx, LayoutRequest.hy, LayoutRequest.sx, LayoutRequest.sy,
    LayoutRequest.fw, LayoutRequest.fh, LayoutRequest.ex, LayoutRequest.ey,
    LayoutRequest.cx, LayoutRequest.cy, LayoutRequest.shifted]

/-- Claim C10: with `staggered = false` and `count_x ≥ 1`, every row's first
and last hole centers satisfy `x_first + x_last = plate_width`, so each row —
and hence the grid — is horizontally centered on the plate. -/
theorem c10_rows_centered (r : LayoutRequest ℚ) (hst : r.staggered = false)
    (hx1 : 1 ≤ r.hx) (row : ℕ) :
    ∃ a b : ℚ × ℚ, (r.rowHoles row).head? = some a ∧
      (r.rowHoles row).getLast? = some b ∧ a.1 + b.1 = r.sw := by
  have hcols : r.rowCols row = intRange 0 r.hx := rowCols_of_not_staggered r hst row
  refine ⟨(r.holeX row 0, r.holeY row), (r.holeX row (r.hx - 1), r.holeY row),
    ?_, ?_, ?_⟩
  · rw [LayoutRequest.rowHoles, hcols, List.head?_map,
      head?_intRange 0 r.hx (by omega)]
    rfl
  · rw [LayoutRequest.rowHoles, hcols, List.getLast?_map,
      getLast?_intRange 0 r.hx (by omega)]
    rfl
  · rw [LayoutRequest.holeX, LayoutRequest.holeX, rowMod_of_not_staggered r hst,
      LayoutRequest.sx, LayoutRequest.fw, shifted_of_not_staggered r hst]
    simp only [if_false, Bool.false_eq_true, add_zero, sub_zero]
    push_cast
    ring

/-- Witness for claim C10: row 0 of the 100×100 straight-row scenario has its
first and last hole x-coordinates summing to the plate width. -/
theorem c10_witness :
    req2.staggered = false ∧ 1 ≤ req2.hx ∧
      (∃ a b : ℚ × ℚ, (req2.rowHoles 0).head? = some a ∧
        (req2.rowHoles 0).getLast? = some b ∧ a.1 + b.1 = req2.sw) := by
  have h1 : (1 : ℤ) ≤ req2.hx := by rw [req2_hx]; decide
  exact ⟨rfl, h1, c10_rows_centered req2 rfl h1 0⟩

/-- Claim C5 counterexample: for code `Qd` with supplied horizontal partition
`q = 1` and vertical partition `p = 2`, the dispatch sets the new
`partition_x` to `sqrt(2) * p = sqrt(2) * 2`, which differs from the claimed
`sqrt(2) * q = sqrt(2) * 1`. -/
theorem c5_counterexample :
    resolveHoleType "Qd" 2 1 =
      .ok ⟨.square, true, Real.sqrt 2 * 2, Real.sqrt 2 * 2 * 0.5⟩ ∧
      Real.sqrt 2 * 2 ≠ Real.sqrt 2 * 1 := by
  constructor
  · simp [resolveHoleType, show lowerString "Qd" = "qd" from by decide]
  · have h : 0 < Real.sqrt 2 := Real.sqrt_pos.mpr (by norm_num)
    intro heq
    nlinarith

/-- Claim C5 (amended): `Rd` (case-insensitive) resolves to a staggered round
pattern with `partition_x := sqrt(2) * q` (the supplied horizontal partition)
and `partition_y := 0.5 * partition_x_new`; `Qd` (case-insensitive) resolves
to a staggered square pattern with `partition_x := sqrt(2) * p` (the supplied
**vertical** partition) and `partition_y := 0.5 * partition_x_new`. -/
theorem c5_amended (p q : ℝ) :
    resolveHoleType "Rd" p q =
      .ok ⟨.round, true, Real.sqrt 2 * q, Real.sqrt 2 * q * 0.5⟩ ∧
    resolveHoleType "rd" p q =
      .ok ⟨.round, true, Real.sqrt 2 * q, Real.sqrt 2 * q * 0.5⟩ ∧
    resolveHoleType "RD" p q =
      .ok ⟨.round, true, Real.sqrt 2 * q, Real.sqrt 2 * q * 0.5⟩ ∧
    resolveHoleType "Qd" p q =
      .ok ⟨.square, true, Real.sqrt 2 * p, Real.sqrt 2 * p * 0.5⟩ ∧
    resolveHoleType "qd" p q =
      .ok ⟨.square, true, Real.sqrt 2 * p, Real.sqrt 2 * p * 0.5⟩ ∧
    resolveHoleType "QD" p q =
      .ok ⟨.square, true, Real.sqrt 2 * p, Real.sqrt 2 * p * 0.5⟩ := by
  refine ⟨?_, ?_, ?_, ?_, ?_, ?_⟩
  · simp [resolveHoleType, show lowerString "Rd" = "rd" from by decide]
  · simp [resolveHoleType, show lowerString "rd" = "rd" from by decide]
  · simp [resolveHoleType, show lowerString "RD" = "rd" from by decide]
  · simp [resolveHoleType, show lowerString "Qd" = "qd" from by decide]
  · simp [resolveHoleType, show lowerString "qd" = "qd" from by decide]
  · simp [resolveHoleType, show lowerString "QD" = "qd" from by decide]

/-- Claim C7 counterexample: for the unrecognized code `zz` the program aborts
with the message naming the code, but `abort` is called with its default
`code = 0`, so the process exit status is 0, not non-zero. -/
theorem c7_counterexample :
    runProgram "zz" 100 100 5 5 10 10 0 0 false false =
      .error ⟨"Hole type zz not implemented", 0⟩ ∧
      ¬ ∃ a : AbortCall,
          runProgram "zz" 100 100 5 5 10 10 0 0 false false = .error a ∧
            a.exitCode ≠ 0 := by
  have hrun : runProgram "zz" 100 100 5 5 10 10 0 0 false false =
      .error ⟨"Hole type zz not implemented", 0⟩ := by
    simp [runProgram, resolveHoleType, show lowerString "zz" = "zz" from by decide]
  refine ⟨hrun, ?_⟩
  rintro ⟨a, ha, hc⟩
  rw [hrun] at ha
  injection ha with h'
  exact hc (by rw [← h'])

/-- Claim C7 (amended): any code whose lowercase form is not one of the ten
recognized DIN codes makes the program abort before any layout computation,
with a message naming the offending code, and the process exits via
`abort`'s default status 0 (not a non-zero status). -/
theorem c7_amended (t : String) (imgW imgH w l p q fx fy : ℝ)
    (uniform corners : Bool)
    (h : lowerString t ∉
      (["rg", "rd", "rv", "qg", "qd", "qv", "lg", "lge", "lv", "lve"] : List String)) :
    runProgram t imgW imgH w l p q fx fy uniform corners =
      .error ⟨"Hole type " ++ t ++ " not implemented", 0⟩ := by
  simp only [List.mem_cons, List.mem_singleton, not_or] at h
  obtain ⟨h1, h2, h3, h4, h5, h6, h7, h8, h9, h10, -⟩ := h
  simp only [runProgram, resolveHoleType]
  rw [if_neg h1, if_neg h2, if_neg h3, if_neg h4, if_neg h5, if_neg h6,
    if_neg h7, if_neg h8, if_neg h9, if_neg h10]

/-- Witness for the amended claim C7: the code `zz` is unrecognized and makes
the program abort with exit status 0. -/
theorem c7_witness :
    lowerString "zz" ∉
        (["rg", "rd", "rv", "qg", "qd", "qv", "lg", "lge", "lv", "lve"] : List String) ∧
      runProgram "zz" 1 1 1 1 1 1 1 1 true true =
        .error ⟨"Hole type zz not implemented", 0⟩ :=
  ⟨by decide, c7_amended "zz" 1 1 1 1 1 1 1 1 true true (by decide)⟩

end Locher
